import Mathlib

/-!
Shallow embedding of the screen-capture / recording application
("ScreenCap Pro"): the electron main process (orchestrator), the
background recording worker (`BackgroundRecorder`), and the overlay
selection surface (`RegionSelector`).

JS numbers are modelled as rationals (`ℚ`); JS 32-bit bitwise
operations are modelled explicitly with wraparound on `ℤ`.
-/

namespace Record

/-! ### JS numeric primitives -/

/-- JS `Math.round`: floor of the argument plus one half
(rounds half toward positive infinity). -/
def jsRound (q : ℚ) : ℤ := Int.floor (q + 1/2)

/-- Conversion of an integer to JS 32-bit two's-complement range, as
performed implicitly by JS bitwise operators. -/
def toInt32 (n : ℤ) : ℤ := (n + 2^31) % 2^32 - 2^31

/-- JS `n & ~1` (clear the lowest bit of the 32-bit two's-complement
representation): twice the floor-division by two of the int32 value. -/
def jsAndNot1 (n : ℤ) : ℤ := 2 * Int.fdiv (toInt32 n) 2

/-! ### Data model (`AppSettings`, rectangles) -/

/-- Overlay mode, from `RegionSelectorProps.mode`. -/
inductive Mode
  | clipboard
  | file
  | record
deriving DecidableEq, Repr

/-- Still-image format from `AppSettings.imageFormat`. -/
inductive ImageFormat
  | png
  | jpg
deriving DecidableEq, Repr

/-- Video container format from `AppSettings.videoFormat`. -/
inductive VideoFormat
  | mp4
  | webm
deriving DecidableEq, Repr

/-- Audio source selection from `AppSettings.audioSource`. -/
inductive AudioSource
  | none
  | system
  | mic
deriving DecidableEq, Repr

/-- Shortcut keymap from `AppSettings.shortcutMode`. -/
inductive ShortcutMode
  | standard
  | alternative
deriving DecidableEq, Repr

/-- The main-process `AppSettings` record. -/
structure AppSettings where
  savePath : String
  imageFormat : ImageFormat
  videoFormat : VideoFormat
  audioSource : AudioSource
  frameRate : ℕ
  shortcutMode : ShortcutMode
deriving DecidableEq, Repr

/-- A selection rectangle in logical screen pixels (`SelectionRect` in the
renderer sources); coordinates are JS numbers, modelled as rationals. -/
structure SelectionRect where
  x : ℚ
  y : ℚ
  width : ℚ
  height : ℚ
deriving DecidableEq, Repr

/-- An integer-valued rectangle (result of `Math.round` on each component),
as passed to `nativeImage.crop`. -/
structure IntRect where
  x : ℤ
  y : ℤ
  width : ℤ
  height : ℤ
deriving DecidableEq, Repr

/-- `path.join(dir, name)` for the cases used here. -/
def joinPath (dir name : String) : String := dir ++ "/" ++ name

/-! ### Orchestrator: still-image capture (`capture-region` handler) -/

/-- Crop-rectangle computation of the `capture-region` IPC handler:
`scaleX = imgSize.width / width`, `scaleY = imgSize.height / height`,
each component of the logical rectangle scaled and passed through
`Math.round`. `imgW`/`imgH` is the size of the captured still image
(physical pixels); `boundsW`/`boundsH` is `display.bounds` (logical). -/
def captureCropRect (rect : SelectionRect) (imgW imgH boundsW boundsH : ℚ) : IntRect :=
  let scaleX := imgW / boundsW
  let scaleY := imgH / boundsH
  { x := jsRound (rect.x * scaleX)
    y := jsRound (rect.y * scaleY)
    width := jsRound (rect.width * scaleX)
    height := jsRound (rect.height * scaleY) }

/-- File name used by the file branch of `capture-region`:
the template literal is `screenshot-TIMESTAMP.png`, with the extension
written literally in the source. -/
def screenshotFileName (timestamp : String) : String :=
  "screenshot-" ++ timestamp ++ ".png"

/-- A still image written to disk: its full path and the encoding the
image bytes were produced with. -/
structure StillOutput where
  path : String
  encoding : ImageFormat
deriving DecidableEq, Repr

/-- File branch of the `capture-region` handler:
`fs.writeFileSync(path.join(settings.savePath, screenshot-TIMESTAMP.png),
cropped.toPNG())` — the bytes always come from `toPNG()` and the
extension is always `png`, independent of `settings.imageFormat`. -/
def captureRegionFileOutput (settings : AppSettings) (timestamp : String) : StillOutput :=
  { path := joinPath settings.savePath (screenshotFileName timestamp)
    encoding := ImageFormat.png }

/-! ### Orchestrator: `recording-finished` handler -/

/-- User-facing transient notifications emitted by the
`recording-finished` handler (in source order). -/
inductive Notice
  | emptyData
  | writingFile
  | writeFailed
  | startingTranscode
  | savedMp4AndWebm
  | transcodeFailedKeptWebm
  | savedWebm
deriving DecidableEq, Repr

/-- Outcome of one run of the `recording-finished` handler: which files
ended up on disk and which notifications were shown, in order. -/
structure FinishResult where
  writtenFiles : List String
  notices : List Notice
deriving DecidableEq, Repr

/-- `recording-TIMESTAMP.webm`, the native-container output name. -/
def webmName (timestamp : String) : String := "recording-" ++ timestamp ++ ".webm"

/-- `recording-TIMESTAMP.mp4`, the transcoded output name. -/
def mp4Name (timestamp : String) : String := "recording-" ++ timestamp ++ ".mp4"

/-- The `recording-finished` IPC handler. `buffer` is the handed-over
container buffer (`none` models a missing argument, `some n` a buffer of
`n` bytes); `writeOk` models whether `fs.writeFileSync` of the webm file
succeeds; `transcodeOk` models whether the ffmpeg transcode promise
resolves. The handler catches both failures itself, so it is total: no
branch rethrows. -/
def recordingFinished (settings : AppSettings) (timestamp : String)
    (buffer : Option ℕ) (writeOk transcodeOk : Bool) : FinishResult :=
  let bufLength := buffer.getD 0
  if bufLength = 0 then
    { writtenFiles := [], notices := [Notice.emptyData] }
  else if writeOk = false then
    { writtenFiles := [], notices := [Notice.writingFile, Notice.writeFailed] }
  else
    match settings.videoFormat with
    | VideoFormat.mp4 =>
      if transcodeOk then
        { writtenFiles := [joinPath settings.savePath (webmName timestamp),
                           joinPath settings.savePath (mp4Name timestamp)]
          notices := [Notice.writingFile, Notice.startingTranscode, Notice.savedMp4AndWebm] }
      else
        { writtenFiles := [joinPath settings.savePath (webmName timestamp)]
          notices := [Notice.writingFile, Notice.startingTranscode,
                      Notice.transcodeFailedKeptWebm] }
    | VideoFormat.webm =>
      { writtenFiles := [joinPath settings.savePath (webmName timestamp)]
        notices := [Notice.writingFile, Notice.savedWebm] }

/-! ### Recording worker (`BackgroundRecorder`) -/

/-- `MediaRecorder.state`, restricted to the values the worker observes. -/
inductive RecState
  | recording
  | inactive
deriving DecidableEq, Repr

/-- The worker's `mediaRecorderRef` content, tagged with the recording
session that created it. -/
structure Recorder where
  session : ℕ
  state : RecState
deriving DecidableEq, Repr

/-- A media track; `stopped` records whether `track.stop()` was called.
`owner` is the session the track was acquired for. -/
structure Track where
  owner : ℕ
  stopped : Bool
deriving DecidableEq, Repr

/-- An encoded media chunk pushed by `ondataavailable`, tagged with the
session whose recorder emitted it. -/
structure Chunk where
  session : ℕ
  size : ℕ
deriving DecidableEq, Repr

/-- The worker's mutable refs: `mediaRecorderRef`, `streamRef` (the
tracks of the stream it holds), `animationFrameRef` (the pending draw
timeout, if any) and `chunksRef`. -/
structure WorkerState where
  mediaRecorder : Option Recorder
  streamTracks : Option (List Track)
  tickTimer : Option ℕ
  chunks : List Chunk
deriving DecidableEq, Repr

/-- The cleanup block at the head of `handleStart`: stop the previous
recorder when it is not inactive, call `stop()` on every track of the
previous stream and null the stream ref, clear the pending tick timeout,
and reset the chunk buffer to `[]`. The second component returns the
previous stream's tracks as they are after `t.stop()` ran on each. -/
def teardownPrevious (s : WorkerState) : WorkerState × List Track :=
  let recorder :=
    match s.mediaRecorder with
    | some r =>
      if r.state ≠ RecState.inactive then some { r with state := RecState.inactive }
      else some r
    | none => none
  let stoppedTracks :=
    match s.streamTracks with
    | some ts => ts.map (fun t => { t with stopped := true })
    | none => []
  ({ mediaRecorder := recorder, streamTracks := none, tickTimer := none, chunks := [] },
   stoppedTracks)

/-- The acquisition part of `handleStart`: obtain a fresh screen stream
for the new session, start the draw loop (which schedules a tick
timeout), clear the chunk buffer once more, and create and start a new
`MediaRecorder` for the session. -/
def acquireSession (sid : ℕ) (s : WorkerState) : WorkerState :=
  { s with
    mediaRecorder := some { session := sid, state := RecState.recording }
    streamTracks := some [{ owner := sid, stopped := false }]
    tickTimer := some 0
    chunks := [] }

/-- `handleStart` for session `sid`: the cleanup block runs first, then
acquisition for the new session. -/
def handleStart (sid : ℕ) (s : WorkerState) : WorkerState :=
  acquireSession sid (teardownPrevious s).1

/-- `recorder.ondataavailable`: a chunk of positive size is appended to
the chunk buffer (tagged with the emitting recorder's session); an empty
chunk is only logged. -/
def onDataAvailable (s : WorkerState) (size : ℕ) : WorkerState :=
  match s.mediaRecorder with
  | some r =>
    if size > 0 then { s with chunks := s.chunks ++ [{ session := r.session, size := size }] }
    else s
  | none => s

/-- Byte length of the `Blob` built from the accumulated chunks
(concatenation, so the sizes add up). -/
def blobSize (chunks : List Chunk) : ℕ := (chunks.map Chunk.size).sum

/-- `recorder.onstop`: clear the tick timeout, stop all acquired tracks,
concatenate the accumulated chunks into one buffer and hand it to the
main process via `recordingFinished`. The second component is the
handed-over chunk list. -/
def onRecorderStop (s : WorkerState) : WorkerState × List Chunk :=
  ({ mediaRecorder := s.mediaRecorder.map (fun r => { r with state := RecState.inactive })
     streamTracks := s.streamTracks.map (List.map (fun t => { t with stopped := true }))
     tickTimer := none
     chunks := s.chunks },
   s.chunks)

/-- Result of a stop request: the state afterwards, the buffer handed to
the orchestrator if any, and whether the already-inactive warning was
logged. -/
structure StopResult where
  state : WorkerState
  finishedBuffer : Option (List Chunk)
  warnedInactive : Bool
deriving DecidableEq, Repr

/-- `handleStop`: when the recorder exists and is not inactive, call
`recorder.stop()` (whose `onstop` handler tears the session down and
hands the buffer over); otherwise log a warning and do nothing. -/
def handleStop (s : WorkerState) : StopResult :=
  match s.mediaRecorder with
  | some r =>
    if r.state ≠ RecState.inactive then
      { state := (onRecorderStop s).1
        finishedBuffer := some (onRecorderStop s).2
        warnedInactive := false }
    else
      { state := s, finishedBuffer := none, warnedInactive := true }
  | none => { state := s, finishedBuffer := none, warnedInactive := true }

/-! ### Frame compositor (canvas setup and draw loop) -/

/-- `const sourceScale = rect.scaleFactor || 1`: a missing or falsy
(zero) scale factor defaults to `1`. -/
def sourceScale (scaleFactor : Option ℚ) : ℚ :=
  match scaleFactor with
  | some v => if v = 0 then 1 else v
  | none => 1

/-- `const outputScale = 1` in `handleStart`. -/
def outputScale : ℚ := 1

/-- `canvas.width = Math.floor(rect.width * outputScale) & ~1`. -/
def canvasWidth (rect : SelectionRect) : ℤ :=
  jsAndNot1 (Int.floor (rect.width * outputScale))

/-- `canvas.height = Math.floor(rect.height * outputScale) & ~1`. -/
def canvasHeight (rect : SelectionRect) : ℤ :=
  jsAndNot1 (Int.floor (rect.height * outputScale))

/-- Source crop rectangle drawn on each tick:
`Math.round` of each selection component times `sourceScale`. -/
def drawSourceRect (rect : SelectionRect) (scaleFactor : Option ℚ) : IntRect :=
  let s := sourceScale scaleFactor
  { x := jsRound (rect.x * s)
    y := jsRound (rect.y * s)
    width := jsRound (rect.width * s)
    height := jsRound (rect.height * s) }

/-- State observed by one invocation of the `draw` tick callback:
whether the 2d context exists, the video element's paused/ended flags,
how many frames have been drawn so far, and whether a next tick timeout
is pending. When `drawTick` runs, the timeout that triggered it has
already fired, so `nextTickScheduled` reflects only what `draw` itself
schedules. -/
structure TickState where
  ctxOk : Bool
  videoPaused : Bool
  videoEnded : Bool
  framesDrawn : ℕ
  nextTickScheduled : Bool
deriving DecidableEq, Repr

/-- The `draw` callback: `if (!ctx || video.paused || video.ended)
return;` — the early return draws nothing and schedules nothing;
otherwise it draws one frame and schedules the next tick via
`setTimeout(draw, 1000 / 30)`. -/
def drawTick (s : TickState) : TickState :=
  if s.ctxOk = false ∨ s.videoPaused = true ∨ s.videoEnded = true then
    { s with nextTickScheduled := false }
  else
    { s with framesDrawn := s.framesDrawn + 1, nextTickScheduled := true }

/-- Run up to `n` further timer-driven ticks: a tick only fires while a
timeout is pending. -/
def runTicks (s : TickState) : ℕ → TickState
  | 0 => s
  | n + 1 => if s.nextTickScheduled then runTicks (drawTick s) n else s

/-! ### Region selector overlay -/

/-- The OS-level input mode requested through `setIgnoreMouseEvents`:
capture, pass-through with event forwarding, or pass-through without
forwarding. -/
inductive MouseMode
  | capture
  | passThroughForward
  | passThroughNoForward
deriving DecidableEq, Repr

/-- The click-through effect of `RegionSelector` (dependencies
`[mode, isRecordingActive, screenshotUrl]`): in record mode the overlay
passes through (with forwarding) exactly while recording is active; in
the still modes it captures exactly while a frozen screenshot backdrop
is present, and otherwise passes through without forwarding. -/
def clickThroughPolicy (mode : Mode) (isRecordingActive : Bool) (hasBackdrop : Bool) :
    MouseMode :=
  if mode = Mode.record then
    if isRecordingActive = true then MouseMode.passThroughForward else MouseMode.capture
  else
    if hasBackdrop = true then MouseMode.capture else MouseMode.passThroughNoForward

/-- Whether a mouse mode captures input. -/
def isCapture : MouseMode → Bool
  | MouseMode.capture => true
  | MouseMode.passThroughForward => false
  | MouseMode.passThroughNoForward => false

/-- Whether a mouse mode passes input through (either forwarding
variant). -/
def isPassThrough (m : MouseMode) : Bool := !(isCapture m)

/-- Overlay state relevant to click-through: the three policy inputs
plus the currently requested OS input mode. -/
structure OverlayState where
  mode : Mode
  isRecordingActive : Bool
  hasBackdrop : Bool
  clickThrough : MouseMode
deriving DecidableEq, Repr

/-- Events that issue `setIgnoreMouseEvents` calls: a change of the
effect dependencies, or the control bar's mouse-enter / mouse-leave
handlers. -/
inductive OverlayEvent
  | tripleChange (mode : Mode) (isRecordingActive : Bool) (hasBackdrop : Bool)
  | controlMouseEnter
  | controlMouseLeave
deriving DecidableEq, Repr

/-- One overlay transition: the click-through effect re-runs on any
change of its dependency triple; `handleControlMouseEnter` and
`handleControlMouseLeave` switch the input mode directly whenever
`mode === record && isRecordingActive`, without changing the triple. -/
def overlayStep (s : OverlayState) (e : OverlayEvent) : OverlayState :=
  match e with
  | OverlayEvent.tripleChange m a b =>
    { mode := m, isRecordingActive := a, hasBackdrop := b,
      clickThrough := clickThroughPolicy m a b }
  | OverlayEvent.controlMouseEnter =>
    if s.mode = Mode.record ∧ s.isRecordingActive = true then
      { s with clickThrough := MouseMode.capture }
    else s
  | OverlayEvent.controlMouseLeave =>
    if s.mode = Mode.record ∧ s.isRecordingActive = true then
      { s with clickThrough := MouseMode.passThroughForward }
    else s

/-- Rectangle produced by a pointer drag (`handleMouseMove`): min of the
start and current coordinates, absolute differences as dimensions. -/
def dragRect (startX startY curX curY : ℚ) : SelectionRect :=
  { x := min startX curX
    y := min startY curY
    width := |curX - startX|
    height := |curY - startY| }

/-- What a mouse-up event leads to. -/
inductive MouseUpAction
  | ignored
  | reverted
  | awaitConfirm
  | capture (rect : SelectionRect)
deriving DecidableEq, Repr

/-- `handleMouseUp`: a non-primary button or a mouse-up outside a drag
is ignored; otherwise selecting ends, and only a selection with both
dimensions strictly greater than 5 triggers an action — waiting for the
confirm button in record mode, `captureAndFinish` otherwise. The first
component is the `isSelecting` flag afterwards. -/
def handleMouseUp (mode : Mode) (button : ℕ) (isSelecting : Bool)
    (selection : Option SelectionRect) : Bool × MouseUpAction :=
  if button ≠ 0 ∨ isSelecting = false then (isSelecting, MouseUpAction.ignored)
  else
    match selection with
    | some sel =>
      if sel.width > 5 ∧ sel.height > 5 then
        if mode = Mode.record then (false, MouseUpAction.awaitConfirm)
        else (false, MouseUpAction.capture sel)
      else (false, MouseUpAction.reverted)
    | none => (false, MouseUpAction.reverted)

/-- The guard of `captureAndFinish`: `if (rect.width < 5 || rect.height < 5)
return;` — whether the `captureRegion` IPC call is reached. -/
def captureAndFinishFires (rect : SelectionRect) : Bool :=
  if rect.width < 5 ∨ rect.height < 5 then false else true

/-! ### Helper lemmas -/

/-- `Math.round` lands within half a unit of its argument. -/
theorem jsRound_nearest (q : ℚ) : |(jsRound q : ℚ) - q| ≤ 1/2 := by
  have h1 := Int.floor_le (q + 1/2)
  have h2 := Int.lt_floor_add_one (q + 1/2)
  simp only [jsRound]
  rw [abs_le]
  constructor <;> linarith

/-- The int32 conversion is the identity on in-range values. -/
theorem toInt32_eq_self (n : ℤ) (h0 : 0 ≤ n) (h : n < 2^31) : toInt32 n = n := by
  have hp : (2:ℤ)^31 + 2^31 = 2^32 := by norm_num
  have h1 : 0 ≤ n + 2^31 := by positivity
  have h2 : n + 2^31 < 2^32 := by linarith
  simp only [toInt32]
  rw [Int.emod_eq_of_lt h1 h2]
  ring

/-- On in-range nonnegative integers, `n & ~1` is the greatest even
integer not exceeding `n`. -/
theorem jsAndNot1_evenFloor (n : ℤ) (h0 : 0 ≤ n) (h : n < 2^31) :
    jsAndNot1 n = 2 * (n / 2) ∧ Even (jsAndNot1 n) ∧ jsAndNot1 n ≤ n ∧ n - jsAndNot1 n < 2 := by
  have ht : toInt32 n = n := toInt32_eq_self n h0 h
  have hf : Int.fdiv n 2 = n / 2 := Int.fdiv_eq_ediv n (by norm_num)
  have key : jsAndNot1 n = 2 * (n / 2) := by rw [jsAndNot1, ht, hf]
  have hmod0 : 0 ≤ n % 2 := Int.emod_nonneg n (by norm_num)
  have hmod2 : n % 2 < 2 := Int.emod_lt_of_pos n (by norm_num)
  have hdm : 2 * (n / 2) + n % 2 = n := Int.ediv_add_emod n 2
  refine ⟨key, ?_, ?_, ?_⟩
  · rw [key]
    exact even_two_mul _
  · rw [key]
    linarith
  · rw [key]
    linarith

/-! ### Claim theorems -/

/-- C3: for every selection rectangle in logical pixels, the still-capture
crop rectangle is the selection scaled componentwise by
physical-image-size over logical-display-size, each component rounded to
the nearest integer; rounding is within half a pixel; and with a 2.0
scale factor the logical rect (100,100,200,150) yields the physical crop
(200,200,400,300). -/
theorem c3_capture_crop_scaling (rect : SelectionRect) (imgW imgH boundsW boundsH : ℚ) :
    captureCropRect rect imgW imgH boundsW boundsH =
      { x := jsRound (rect.x * (imgW / boundsW))
        y := jsRound (rect.y * (imgH / boundsH))
        width := jsRound (rect.width * (imgW / boundsW))
        height := jsRound (rect.height * (imgH / boundsH)) } ∧
    (∀ q : ℚ, |(jsRound q : ℚ) - q| ≤ 1/2) ∧
    captureCropRect ⟨100, 100, 200, 150⟩ 3840 2160 1920 1080 = ⟨200, 200, 400, 300⟩ := by
  refine ⟨rfl, jsRound_nearest, ?_⟩
  simp [captureCropRect, jsRound]
  norm_num

/-- C4: the compositor destination canvas dimensions are the selection
width and height with `Math.floor` applied and the low bit cleared, hence
even and equal to the greatest even number not above the floored value;
selection 101 by 51 yields destination 100 by 50; and the source crop
scale factor defaults to 1 when `rect.scaleFactor` is absent or falsy. -/
theorem c4_canvas_even_dims (rect : SelectionRect)
    (hw0 : 0 ≤ rect.width) (hw : rect.width < 2^31)
    (hh0 : 0 ≤ rect.height) (hh : rect.height < 2^31) :
    (canvasWidth rect = jsAndNot1 (Int.floor rect.width) ∧
      canvasHeight rect = jsAndNot1 (Int.floor rect.height)) ∧
    (Even (canvasWidth rect) ∧ canvasWidth rect ≤ Int.floor rect.width ∧
      Int.floor rect.width - canvasWidth rect < 2) ∧
    (Even (canvasHeight rect) ∧ canvasHeight rect ≤ Int.floor rect.height ∧
      Int.floor rect.height - canvasHeight rect < 2) ∧
    (canvasWidth ⟨0, 0, 101, 51⟩ = 100 ∧ canvasHeight ⟨0, 0, 101, 51⟩ = 50) ∧
    (sourceScale none = 1 ∧ sourceScale (some 0) = 1) := by
  have hwdef : canvasWidth rect = jsAndNot1 (Int.floor rect.width) := by
    simp [canvasWidth, outputScale]
  have hhdef : canvasHeight rect = jsAndNot1 (Int.floor rect.height) := by
    simp [canvasHeight, outputScale]
  have hwf0 : 0 ≤ Int.floor rect.width := Int.floor_nonneg.mpr hw0
  have hwf : Int.floor rect.width < 2^31 := by
    rw [Int.floor_lt]
    push_cast
    exact_mod_cast hw
  have hhf0 : 0 ≤ Int.floor rect.height := Int.floor_nonneg.mpr hh0
  have hhf : Int.floor rect.height < 2^31 := by
    rw [Int.floor_lt]
    push_cast
    exact_mod_cast hh
  obtain ⟨-, hwe, hwle, hwlt⟩ := jsAndNot1_evenFloor (Int.floor rect.width) hwf0 hwf
  obtain ⟨-, hhe, hhle, hhlt⟩ := jsAndNot1_evenFloor (Int.floor rect.height) hhf0 hhf
  refine ⟨⟨hwdef, hhdef⟩, ⟨?_, ?_, ?_⟩, ⟨?_, ?_, ?_⟩, ⟨?_, ?_⟩, rfl, rfl⟩
  · rw [hwdef]; exact hwe
  · rw [hwdef]; exact hwle
  · rw [hwdef]; linarith
  · rw [hhdef]; exact hhe
  · rw [hhdef]; exact hhle
  · rw [hhdef]; linarith
  · have h1 : Int.floor ((101 : ℚ) * outputScale) = 101 := by norm_num [outputScale]
    rw [canvasWidth, h1]
    decide
  · have h1 : Int.floor ((51 : ℚ) * outputScale) = 51 := by norm_num [outputScale]
    rw [canvasHeight, h1]
    decide

/-- Witness for C4 at the concrete selection 101 by 51. -/
theorem c4_canvas_even_dims_witness :
    Even (canvasWidth ⟨0, 0, 101, 51⟩) ∧
    canvasWidth ⟨0, 0, 101, 51⟩ = 100 ∧ canvasHeight ⟨0, 0, 101, 51⟩ = 50 :=
  ⟨(c4_canvas_even_dims ⟨0, 0, 101, 51⟩ (by norm_num) (by norm_num) (by norm_num)
      (by norm_num)).2.1.1,
   (c4_canvas_even_dims ⟨0, 0, 101, 51⟩ (by norm_num) (by norm_num) (by norm_num)
      (by norm_num)).2.2.2.1⟩

/-- `ondataavailable` never touches the recorder ref. -/
theorem onData_mediaRecorder (s : WorkerState) (n : ℕ) :
    (onDataAvailable s n).mediaRecorder = s.mediaRecorder := by
  rcases hmr : s.mediaRecorder with _ | r
  · simp [onDataAvailable, hmr]
  · simp only [onDataAvailable, hmr]
    split
    · rfl
    · exact hmr

/-- A fold of `ondataavailable` events never touches the recorder ref. -/
theorem foldl_onData_mediaRecorder (sizes : List ℕ) (s : WorkerState) :
    (sizes.foldl onDataAvailable s).mediaRecorder = s.mediaRecorder := by
  induction sizes generalizing s with
  | nil => rfl
  | cons n ns ih => rw [List.foldl_cons, ih, onData_mediaRecorder]

/-- One `ondataavailable` event preserves the invariant that every
buffered chunk belongs to the session of the current recorder. -/
theorem onData_chunks_session (s : WorkerState) (n : ℕ) (sid : ℕ)
    (hrec : s.mediaRecorder.all (fun r => r.session == sid) = true)
    (hch : s.chunks.all (fun c => c.session == sid) = true) :
    ((onDataAvailable s n).chunks.all (fun c => c.session == sid)) = true := by
  rcases hmr : s.mediaRecorder with _ | r
  · simpa [onDataAvailable, hmr] using hch
  · have hr : (r.session == sid) = true := by simpa [hmr] using hrec
    simp only [onDataAvailable, hmr]
    split
    · simp [List.all_append, hch, hr]
    · exact hch

/-- Any fold of `ondataavailable` events preserves the per-session chunk
invariant. -/
theorem foldl_onData_chunks_session (sizes : List ℕ) (s : WorkerState) (sid : ℕ)
    (hrec : s.mediaRecorder.all (fun r => r.session == sid) = true)
    (hch : s.chunks.all (fun c => c.session == sid) = true) :
    (((sizes.foldl onDataAvailable s).chunks.all (fun c => c.session == sid))) = true := by
  induction sizes generalizing s with
  | nil => simpa using hch
  | cons n ns ih =>
    rw [List.foldl_cons]
    exact ih (onDataAvailable s n) (by rw [onData_mediaRecorder]; exact hrec)
      (onData_chunks_session s n sid hrec hch)

/-- C1: a start command first tears the previous session down — the
previous recorder ends up inactive, every track of the previous stream is
stopped, the tick timeout is cancelled and the chunk buffer cleared —
before acquiring the new sources, and consequently the finalized buffer
of the new session contains only chunks the new session's recorder
emitted, never chunks of the previous session. -/
theorem c1_session_isolation (s : WorkerState) (sid : ℕ) (sizes : List ℕ) :
    ((teardownPrevious s).2.all (fun t => t.stopped)) = true ∧
    ((teardownPrevious s).1.mediaRecorder.all (fun r => r.state == RecState.inactive)) = true ∧
    (teardownPrevious s).1.streamTracks = none ∧
    (teardownPrevious s).1.tickTimer = none ∧
    (teardownPrevious s).1.chunks = [] ∧
    handleStart sid s = acquireSession sid (teardownPrevious s).1 ∧
    (((handleStop (sizes.foldl onDataAvailable (handleStart sid s))).finishedBuffer.getD []).all
      (fun c => c.session == sid)) = true := by
  refine ⟨?_, ?_, rfl, rfl, rfl, rfl, ?_⟩
  · rcases hst : s.streamTracks with _ | ts <;>
      simp [teardownPrevious, hst, List.all_eq_true]
  · rcases hmr : s.mediaRecorder with _ | r
    · simp [teardownPrevious, hmr]
    · by_cases hr : r.state = RecState.inactive <;> simp [teardownPrevious, hmr, hr]
  · have hrec0 : (handleStart sid s).mediaRecorder =
        some { session := sid, state := RecState.recording } := rfl
    have hch0 : (handleStart sid s).chunks = [] := rfl
    have hall := foldl_onData_chunks_session sizes (handleStart sid s) sid
      (by rw [hrec0]; simp) (by rw [hch0]; rfl)
    have hrec : (sizes.foldl onDataAvailable (handleStart sid s)).mediaRecorder =
        some { session := sid, state := RecState.recording } := by
      rw [foldl_onData_mediaRecorder, hrec0]
    simp only [handleStop, hrec, onRecorderStop]
    simpa using hall

/-- C5: an empty chunk list at finalize time makes the worker hand over a
zero-length buffer, and the orchestrator, receiving a missing or
zero-length buffer, shows the empty-data notification and writes no
file. -/
theorem c5_empty_output (s : WorkerState) (r : Recorder) (settings : AppSettings)
    (timestamp : String) (writeOk transcodeOk : Bool) (buffer : Option ℕ)
    (hrec : s.mediaRecorder = some r) (hact : r.state = RecState.recording)
    (hempty : s.chunks = [])
    (hbuf : buffer = none ∨ buffer = some 0) :
    (handleStop s).finishedBuffer = some [] ∧
    blobSize ((handleStop s).finishedBuffer.getD []) = 0 ∧
    recordingFinished settings timestamp buffer writeOk transcodeOk =
      { writtenFiles := [], notices := [Notice.emptyData] } := by
  have hfb : (handleStop s).finishedBuffer = some [] := by
    simp [handleStop, hrec, hact, onRecorderStop, hempty]
  refine ⟨hfb, ?_, ?_⟩
  · rw [hfb]
    rfl
  · rcases hbuf with hbuf | hbuf <;> simp [recordingFinished, hbuf]

/-- Witness for C5 at a concrete worker state with an active recorder and
no accumulated chunks. -/
theorem c5_empty_output_witness :
    (handleStop ⟨some ⟨1, RecState.recording⟩, some [⟨1, false⟩], some 0, []⟩).finishedBuffer =
      some [] ∧
    blobSize ((handleStop
      ⟨some ⟨1, RecState.recording⟩, some [⟨1, false⟩], some 0, []⟩).finishedBuffer.getD []) = 0 ∧
    recordingFinished ⟨"/save", ImageFormat.png, VideoFormat.mp4, AudioSource.system, 60,
      ShortcutMode.standard⟩ "ts" (some 0) true true =
      { writtenFiles := [], notices := [Notice.emptyData] } :=
  c5_empty_output ⟨some ⟨1, RecState.recording⟩, some [⟨1, false⟩], some 0, []⟩
    ⟨1, RecState.recording⟩
    ⟨"/save", ImageFormat.png, VideoFormat.mp4, AudioSource.system, 60, ShortcutMode.standard⟩
    "ts" true true (some 0) rfl rfl rfl (Or.inr rfl)

/-- C6: a stop request in a state with no active recording session —
recorder ref null or recorder inactive — logs the warning and is a
no-op: the state is unchanged and no finished buffer is emitted. -/
theorem c6_stop_idempotent (s : WorkerState)
    (h : s.mediaRecorder = none ∨
      ∃ r, s.mediaRecorder = some r ∧ r.state = RecState.inactive) :
    handleStop s = { state := s, finishedBuffer := none, warnedInactive := true } := by
  rcases h with h | ⟨r, hr, hst⟩
  · simp [handleStop, h]
  · simp [handleStop, hr, hst]

/-- Witness for C6 at a concrete idle worker state. -/
theorem c6_stop_idempotent_witness :
    handleStop ⟨none, none, none, []⟩ =
      { state := ⟨none, none, none, []⟩, finishedBuffer := none, warnedInactive := true } :=
  c6_stop_idempotent ⟨none, none, none, []⟩ (Or.inl rfl)

/-- C10: when transcoding the written webm recording to mp4 fails, the
handler keeps the webm file, shows the conversion-failure notification,
and completes with a defined result (the failure is caught inside the
handler, so nothing propagates). -/
theorem c10_transcode_failure_nonfatal (settings : AppSettings) (timestamp : String) (n : ℕ)
    (hfmt : settings.videoFormat = VideoFormat.mp4) (hn : 0 < n) :
    recordingFinished settings timestamp (some n) true false =
      { writtenFiles := [joinPath settings.savePath (webmName timestamp)]
        notices := [Notice.writingFile, Notice.startingTranscode,
                    Notice.transcodeFailedKeptWebm] } ∧
    joinPath settings.savePath (webmName timestamp) ∈
      (recordingFinished settings timestamp (some n) true false).writtenFiles ∧
    Notice.transcodeFailedKeptWebm ∈
      (recordingFinished settings timestamp (some n) true false).notices := by
  have key : recordingFinished settings timestamp (some n) true false =
      { writtenFiles := [joinPath settings.savePath (webmName timestamp)]
        notices := [Notice.writingFile, Notice.startingTranscode,
                    Notice.transcodeFailedKeptWebm] } := by
    simp [recordingFinished, hfmt, Nat.pos_iff_ne_zero.mp hn]
  refine ⟨key, ?_, ?_⟩ <;> rw [key] <;> simp

/-- Witness for C10 at concrete settings with mp4 output and a one-byte
buffer. -/
theorem c10_transcode_failure_nonfatal_witness :
    recordingFinished ⟨"/save", ImageFormat.png, VideoFormat.mp4, AudioSource.system, 60,
        ShortcutMode.standard⟩ "ts" (some 1) true false =
      { writtenFiles := [joinPath "/save" (webmName "ts")]
        notices := [Notice.writingFile, Notice.startingTranscode,
                    Notice.transcodeFailedKeptWebm] } :=
  (c10_transcode_failure_nonfatal ⟨"/save", ImageFormat.png, VideoFormat.mp4, AudioSource.system,
    60, ShortcutMode.standard⟩ "ts" 1 rfl (by norm_num)).1

/-- Once no tick timeout is pending, the timer-driven loop never runs
again. -/
theorem runTicks_halted (t : TickState) (h : t.nextTickScheduled = false) :
    ∀ n, runTicks t n = t := by
  intro n
  cases n with
  | zero => rfl
  | succ m => rw [runTicks, h]; simp

/-- C2 counterexample: with the dependency triple unchanged, the control
bar's mouse-enter handler changes the click-through state — so the
click-through state is not a function of the triple alone, and an event
other than a change of the triple changes it. -/
theorem c2_counterexample :
    (overlayStep ⟨Mode.record, true, true, clickThroughPolicy Mode.record true true⟩
        OverlayEvent.controlMouseEnter).mode = Mode.record ∧
    (overlayStep ⟨Mode.record, true, true, clickThroughPolicy Mode.record true true⟩
        OverlayEvent.controlMouseEnter).isRecordingActive = true ∧
    (overlayStep ⟨Mode.record, true, true, clickThroughPolicy Mode.record true true⟩
        OverlayEvent.controlMouseEnter).hasBackdrop = true ∧
    (overlayStep ⟨Mode.record, true, true, clickThroughPolicy Mode.record true true⟩
        OverlayEvent.controlMouseEnter).clickThrough ≠
      clickThroughPolicy Mode.record true true := by
  decide

/-- C2 amended: on every change of the triple the effect sets the
click-through state to a total function of mode, isRecordingActive and
hasBackdrop, and for every combination exactly one of capture and
pass-through holds; additionally, while mode is record and recording is
active, the control bar's hover handlers switch to capture on enter and
back to pass-through-with-forward on leave, and outside that condition
the hover handlers change nothing. -/
theorem c2_policy_amended (s : OverlayState) (m : Mode) (a b : Bool) :
    (isCapture (clickThroughPolicy m a b) = true ∨
      isPassThrough (clickThroughPolicy m a b) = true) ∧
    ¬(isCapture (clickThroughPolicy m a b) = true ∧
      isPassThrough (clickThroughPolicy m a b) = true) ∧
    overlayStep s (OverlayEvent.tripleChange m a b) =
      ⟨m, a, b, clickThroughPolicy m a b⟩ ∧
    (s.mode = Mode.record → s.isRecordingActive = true →
      (overlayStep s OverlayEvent.controlMouseEnter).clickThrough = MouseMode.capture ∧
      (overlayStep s OverlayEvent.controlMouseLeave).clickThrough =
        MouseMode.passThroughForward) ∧
    (¬(s.mode = Mode.record ∧ s.isRecordingActive = true) →
      overlayStep s OverlayEvent.controlMouseEnter = s ∧
      overlayStep s OverlayEvent.controlMouseLeave = s) := by
  refine ⟨?_, ?_, rfl, ?_, ?_⟩
  · cases m <;> cases a <;> cases b <;> decide
  · cases m <;> cases a <;> cases b <;> decide
  · intro h1 h2
    constructor <;> simp [overlayStep, h1, h2]
  · intro h
    constructor <;> simp [overlayStep, h]

/-- Witness for C2 at concrete states: a triple change re-runs the
effect, and hovering the control bar while recording captures input. -/
theorem c2_policy_amended_witness :
    overlayStep ⟨Mode.record, true, false, MouseMode.passThroughForward⟩
        (OverlayEvent.tripleChange Mode.clipboard false true) =
      ⟨Mode.clipboard, false, true, clickThroughPolicy Mode.clipboard false true⟩ ∧
    (overlayStep ⟨Mode.record, true, false, MouseMode.passThroughForward⟩
        OverlayEvent.controlMouseEnter).clickThrough = MouseMode.capture :=
  ⟨(c2_policy_amended ⟨Mode.record, true, false, MouseMode.passThroughForward⟩
      Mode.clipboard false true).2.2.1,
   ((c2_policy_amended ⟨Mode.record, true, false, MouseMode.passThroughForward⟩
      Mode.clipboard false true).2.2.2.1 rfl rfl).1⟩

/-- C7 counterexample: the drag from (0,0) to (5,10) produces a rectangle
with both dimensions at least 5, yet mouse-up in clipboard mode reverts
with no capture, because the code requires strictly more than 5. -/
theorem c7_counterexample :
    (dragRect 0 0 5 10).width ≥ 5 ∧ (dragRect 0 0 5 10).height ≥ 5 ∧
    handleMouseUp Mode.clipboard 0 true (some (dragRect 0 0 5 10)) =
      (false, MouseUpAction.reverted) := by
  have h : dragRect 0 0 5 10 = ⟨0, 0, 5, 10⟩ := by simp [dragRect]
  rw [h]
  refine ⟨by norm_num, by norm_num, by decide⟩

/-- C7 amended: a drag-produced rectangle is treated as a valid
selection only when both dimensions are strictly greater than 5: on any
rectangle without that — either dimension below 5, or one equal to 5 —
mouse-up triggers nothing and the selector reverts to idle; the
`captureAndFinish` guard additionally rejects any rectangle with a
dimension below 5; a rectangle with both dimensions strictly greater
than 5 triggers the capture call in clipboard and file modes, and waits
for the confirm button in record mode. -/
theorem c7_min_selection_amended (mode : Mode) (sel : SelectionRect) :
    (¬(sel.width > 5 ∧ sel.height > 5) →
      handleMouseUp mode 0 true (some sel) = (false, MouseUpAction.reverted)) ∧
    (sel.width < 5 ∨ sel.height < 5 → captureAndFinishFires sel = false) ∧
    (sel.width > 5 ∧ sel.height > 5 → mode ≠ Mode.record →
      handleMouseUp mode 0 true (some sel) = (false, MouseUpAction.capture sel) ∧
      captureAndFinishFires sel = true) ∧
    (sel.width > 5 ∧ sel.height > 5 → mode = Mode.record →
      handleMouseUp mode 0 true (some sel) = (false, MouseUpAction.awaitConfirm)) := by
  refine ⟨?_, ?_, ?_, ?_⟩
  · intro hng
    simp [handleMouseUp, hng]
  · intro h
    simp [captureAndFinishFires, h]
  · intro hgt hm
    constructor
    · simp [handleMouseUp, hgt, hm]
    · have hnl : ¬(sel.width < 5 ∨ sel.height < 5) := by
        push_neg
        constructor <;> linarith [hgt.1, hgt.2]
      simp [captureAndFinishFires, hnl]
  · intro hgt hm
    simp [handleMouseUp, hgt, hm]

/-- Witness for C7: the boundary drag 5-by-7 reverts, a 3-by-10 drag
reverts and its capture guard rejects, and a 30-by-20 drag captures in
clipboard mode. -/
theorem c7_min_selection_amended_witness :
    handleMouseUp Mode.clipboard 0 true (some ⟨0, 0, 5, 7⟩) =
      (false, MouseUpAction.reverted) ∧
    handleMouseUp Mode.clipboard 0 true (some ⟨0, 0, 3, 10⟩) =
      (false, MouseUpAction.reverted) ∧
    captureAndFinishFires ⟨0, 0, 3, 10⟩ = false ∧
    (handleMouseUp Mode.clipboard 0 true (some ⟨0, 0, 30, 20⟩) =
        (false, MouseUpAction.capture ⟨0, 0, 30, 20⟩) ∧
      captureAndFinishFires ⟨0, 0, 30, 20⟩ = true) :=
  ⟨(c7_min_selection_amended Mode.clipboard ⟨0, 0, 5, 7⟩).1 (by norm_num),
   (c7_min_selection_amended Mode.clipboard ⟨0, 0, 3, 10⟩).1 (by norm_num),
   (c7_min_selection_amended Mode.clipboard ⟨0, 0, 3, 10⟩).2.1 (Or.inl (by norm_num)),
   (c7_min_selection_amended Mode.clipboard ⟨0, 0, 30, 20⟩).2.2.1
     ⟨by norm_num, by norm_num⟩ (by decide)⟩

/-- C8 counterexample: a tick that finds the video paused skips drawing
without error, but schedules no further tick, so the tick loop does not
keep running — even many timer slots later no frame is drawn. -/
theorem c8_counterexample :
    (drawTick ⟨true, true, false, 0, true⟩).framesDrawn = 0 ∧
    (drawTick ⟨true, true, false, 0, true⟩).nextTickScheduled = false ∧
    runTicks (drawTick ⟨true, true, false, 0, true⟩) 100 =
      drawTick ⟨true, true, false, 0, true⟩ := by
  decide

/-- C8 amended: a tick that finds the source video paused or ended skips
the frame without raising an error, but returns without scheduling the
next tick, so the draw loop halts permanently for the rest of the
session; a tick with a live video draws one frame and schedules the
next tick. -/
theorem c8_paused_tick_halts (s : TickState) :
    (s.videoPaused = true ∨ s.videoEnded = true →
      drawTick s = { s with nextTickScheduled := false } ∧
      (drawTick s).framesDrawn = s.framesDrawn ∧
      ∀ n, runTicks (drawTick s) n = drawTick s) ∧
    (s.ctxOk = true → s.videoPaused = false → s.videoEnded = false →
      drawTick s = { s with framesDrawn := s.framesDrawn + 1, nextTickScheduled := true }) := by
  constructor
  · intro h
    have hd : drawTick s = { s with nextTickScheduled := false } := by
      rcases h with h | h <;> simp [drawTick, h]
    refine ⟨hd, by rw [hd], ?_⟩
    exact runTicks_halted _ (by rw [hd])
  · intro h1 h2 h3
    simp [drawTick, h1, h2, h3]

/-- Witness for C8: at a concrete paused tick state the loop halts, and
at a live tick state a frame is drawn. -/
theorem c8_paused_tick_halts_witness :
    ((drawTick ⟨true, true, false, 7, true⟩).framesDrawn = 7 ∧
      runTicks (drawTick ⟨true, true, false, 7, true⟩) 42 =
        drawTick ⟨true, true, false, 7, true⟩) ∧
    drawTick ⟨true, false, false, 7, true⟩ = ⟨true, false, false, 8, true⟩ :=
  ⟨⟨((c8_paused_tick_halts ⟨true, true, false, 7, true⟩).1 (Or.inl rfl)).2.1,
    ((c8_paused_tick_halts ⟨true, true, false, 7, true⟩).1 (Or.inl rfl)).2.2 42⟩,
   (c8_paused_tick_halts ⟨true, false, false, 7, true⟩).2 rfl rfl rfl⟩

/-- C9 counterexample: with the configured still format set to jpg, the
file written by the file-mode capture branch is still PNG-encoded with a
`.png` name, so encoding and extension do not match the configured
imageFormat. -/
theorem c9_counterexample :
    (captureRegionFileOutput ⟨"/save", ImageFormat.jpg, VideoFormat.mp4, AudioSource.system, 60,
        ShortcutMode.standard⟩ "2025-01-01T00-00-00").encoding ≠ ImageFormat.jpg ∧
    (captureRegionFileOutput ⟨"/save", ImageFormat.jpg, VideoFormat.mp4, AudioSource.system, 60,
        ShortcutMode.standard⟩ "2025-01-01T00-00-00").path =
      "/save/screenshot-2025-01-01T00-00-00.png" := by
  constructor
  · decide
  · rfl

/-- C9 amended: every file-mode still capture is written PNG-encoded to
`savePath/screenshot-TIMESTAMP.png`, regardless of the configured
imageFormat — the timestamped-name-under-save-directory part of the
claim holds, the format-follows-settings part does not. -/
theorem c9_always_png (settings : AppSettings) (timestamp : String) :
    captureRegionFileOutput settings timestamp =
      { path := joinPath settings.savePath ("screenshot-" ++ timestamp ++ ".png")
        encoding := ImageFormat.png } ∧
    (∀ f : ImageFormat,
      captureRegionFileOutput { settings with imageFormat := f } timestamp =
        captureRegionFileOutput settings timestamp) :=
  ⟨rfl, fun _ => rfl⟩

end Record
